import Mathlib

/-! Verification of the Artemis Firmware Upload GUI (`AFU.py`) against its
natural-language specification.

The GUI layer (`AFU.py`) is embedded shallowly: each Python method that the
claims mention becomes a pure Lean function over an explicit state.  The
serial-bootloader protocol engine described by the specification is not part
of the repository (it lives in the external `artemis_svl.exe` uploader); the
definitions for it are modelled from the specification text and say so in
their doc comments.
-/

namespace AFU

/-! Strings: Python's `in` operator (substring containment) -/

/-- Does `needle` occur at the start of `hay`?  (Helper for `hasSub`.) -/
def startsWith : List Char → List Char → Bool
  | _, [] => true
  | [], _ :: _ => false
  | h :: hs, n :: ns => h = n && startsWith hs ns

/-- Does `needle` occur contiguously anywhere inside `hay`?  This is the
semantics of Python's `needle in hay` for strings. -/
def hasSub (hay needle : List Char) : Bool :=
  startsWith hay needle ||
    match hay with
    | [] => false
    | _ :: hs => hasSub hs needle

/-- Python `needle in hay` on strings. -/
def strContains (hay needle : String) : Bool :=
  hasSub hay.toList needle.toList

/-- Python `result.count "#"`: number of `'#'` characters in a string. -/
def countHash (s : String) : Nat :=
  s.toList.countP (fun c => c = '#')

/-- Append `n` dots to a string: the observable effect of the loop
`for i in range(n): self.status.setText(self.status.text() + ".")`. -/
def appendDots (s : String) (n : Nat) : String :=
  s ++ String.mk (List.replicate n '.')

/-! The stdout parser (`RemoteWidget.onReadyReadStandardOutput`)

The handler touches exactly two pieces of state: the status label's text and
the global `progressCount`.  We package them as `OutState`. -/

/-- The state read and written by `onReadyReadStandardOutput`: the status
label text and the module-global `progressCount`. -/
structure OutState where
  status : String
  progressCount : Nat
deriving Repr, DecidableEq

/-- Shallow embedding of `RemoteWidget.onReadyReadStandardOutput`
(`AFU.py` lines 214-230): `result` is the decoded chunk of uploader stdout.

```python
if ("complete" in result):   self.status.setText("Complete")
elif ("failed" in result):   self.status.setText("Upload Failed")
elif ("open" in result):     self.status.setText("Port In Use / Please Close")
else:
    progressCount = progressCount + result.count("#")
    for i in range(int(progressCount / 3)):
        self.status.setText(self.status.text() + ".")
```
-/
def onReadyReadStandardOutput (st : OutState) (result : String) : OutState :=
  if strContains result "complete" then
    { st with status := "Complete" }
  else if strContains result "failed" then
    { st with status := "Upload Failed" }
  else if strContains result "open" then
    { st with status := "Port In Use / Please Close" }
  else
    let pc := st.progressCount + countHash result
    { status := appendDots st.status (pc / 3), progressCount := pc }

/-- The state set up by `on_upload_btn_pressed` just before the uploader
process starts (`AFU.py` lines 195-198): `progressCount = 0` and the status
text `"Uploading "`. -/
def sessionStart : OutState :=
  { status := "Uploading ", progressCount := 0 }

/-- One upload session's stdout handling: the chunks arriving on stdout are
processed in order by `onReadyReadStandardOutput`. -/
def runSession (chunks : List String) (st : OutState) : OutState :=
  chunks.foldl onReadyReadStandardOutput st

/-! Comboboxes (Qt `QComboBox`, as used by the widget) -/

/-- A combobox: a list of items, each a display text paired with item data,
plus the index of the currently selected item.  `currentData` is `none` when
the index is out of range (Qt's `-1` / empty-box case). -/
structure ComboBox (α : Type) where
  items : List (String × α)
  currentIndex : Nat
deriving Repr, DecidableEq

/-- Index of the first item whose data equals `v`, if any
(helper for `ComboBox.findData`). -/
def findIndex {α : Type} [DecidableEq α] (v : α) : List (String × α) → Option Nat
  | [] => none
  | it :: rest => if it.2 = v then some 0 else (findIndex v rest).map (· + 1)

/-- Qt `QComboBox.findData`: index of the first item whose data equals `v`,
or `-1` when no item matches. -/
def ComboBox.findData {α : Type} [DecidableEq α] (cb : ComboBox α) (v : α) : Int :=
  match findIndex v cb.items with
  | some i => (i : Int)
  | none => -1

/-- Qt `QComboBox.setCurrentIndex`. -/
def ComboBox.setCurrentIndex {α : Type} (cb : ComboBox α) (i : Nat) : ComboBox α :=
  { cb with currentIndex := i }

/-- Qt `QComboBox.currentData`: data of the selected item, `none` if the
selection is out of range. -/
def ComboBox.currentData {α : Type} (cb : ComboBox α) : Option α :=
  (cb.items.get? cb.currentIndex).map Prod.snd

/-- Qt `QComboBox.clear`. -/
def ComboBox.clear {α : Type} (cb : ComboBox α) : ComboBox α :=
  { cb with items := [], currentIndex := 0 }

/-- Qt `QComboBox.addItem text data`: appends an item. -/
def ComboBox.addItem {α : Type} (cb : ComboBox α) (text : String) (data : α) :
    ComboBox α :=
  { cb with items := cb.items ++ [(text, data)] }

/-! Serial ports and port-list refresh -/

/-- One entry returned by `serial.tools.list_ports.comports()`. -/
structure PortInfo where
  description : String
  device : String
deriving Repr, DecidableEq

/-- `gen_serial_ports` (`AFU.py` lines 34-37): yields
`(p.description, p.device)` for every enumerated port, in order. -/
def gen_serial_ports (ports : List PortInfo) : List (String × String) :=
  ports.map fun p => (p.description, p.device)

/-- `RemoteWidget.update_com_ports` (`AFU.py` lines 139-143): clears the port
combobox, then `addItem(name, device)` for each enumerated port. -/
def update_com_ports (cb : ComboBox String) (ports : List PortInfo) :
    ComboBox String :=
  (gen_serial_ports ports).foldl (fun c nd => c.addItem nd.1 nd.2) cb.clear

/-- `RemoteWidget.update_baud_rates` (`AFU.py` lines 145-149) applied to a
fresh combobox: the three fixed baud items. -/
def freshBaudCombobox : ComboBox Nat :=
  (((ComboBox.mk [] 0).addItem "921600" 921600).addItem "460800" 460800).addItem
    "115200" 115200

/-! The widget state and settings persistence -/

/-- The parts of `RemoteWidget` state the claims are about. -/
structure WidgetState where
  port_combobox : ComboBox String
  baud_combobox : ComboBox Nat
  fileLocation_text : String
  status : String
deriving Repr, DecidableEq

/-- The `port` property (`AFU.py` lines 152-155): current port combobox data. -/
def WidgetState.port (w : WidgetState) : Option String :=
  w.port_combobox.currentData

/-- The `baudRate` property (`AFU.py` lines 157-160): current baud combobox
data. -/
def WidgetState.baudRate (w : WidgetState) : Option Nat :=
  w.baud_combobox.currentData

/-- A value held by `QSettings`: absent (`None`), a string, or an integer. -/
inductive SettingVal where
  | vNone
  | vStr (s : String)
  | vNat (n : Nat)
deriving Repr, DecidableEq

/-- `QSettings` storage: an association list from keys to values; `setValue`
shadows earlier bindings of the same key. -/
def Settings : Type := List (String × SettingVal)

/-- `QSettings.setValue`. -/
def Settings.setValue (s : Settings) (k : String) (v : SettingVal) : Settings :=
  (k, v) :: s

/-- `QSettings.value`: most recent value stored under `k`, `vNone` if the key
was never written. -/
def Settings.value (s : Settings) (k : String) : SettingVal :=
  match List.find? (fun kv => kv.1 = k) s with
  | some kv => kv.2
  | none => .vNone

/-- `SETTING_PORT_NAME` (`AFU.py` line 25). -/
def SETTING_PORT_NAME : String := "port_name"

/-- `SETTING_FILE_LOCATION` (`AFU.py` line 26). -/
def SETTING_FILE_LOCATION : String := "message"

/-- `SETTING_BAUD_RATE` (`AFU.py` line 27): the key is the literal string
`'921600'`. -/
def SETTING_BAUD_RATE : String := "921600"

/-- Wrap an optional string the way `setValue` receives `self.port`
(which is `None` when the combobox is empty). -/
def optValS : Option String → SettingVal
  | some s => .vStr s
  | none => .vNone

/-- Wrap an optional integer the way `setValue` receives `self.baudRate`. -/
def optValN : Option Nat → SettingVal
  | some n => .vNat n
  | none => .vNone

/-- `RemoteWidget._save_settings` (`AFU.py` lines 127-133): stores the current
port device, the file-location text and the current baud rate under the three
fixed keys. -/
def save_settings (w : WidgetState) (s : Settings) : Settings :=
  ((s.setValue SETTING_PORT_NAME (optValS w.port)).setValue
      SETTING_FILE_LOCATION (.vStr w.fileLocation_text)).setValue
    SETTING_BAUD_RATE (optValN w.baudRate)

/-- `RemoteWidget.closeEvent` (`AFU.py` lines 162-166): saves settings. -/
def closeEvent (w : WidgetState) (s : Settings) : Settings :=
  save_settings w s

/-- `RemoteWidget._load_settings` (`AFU.py` lines 105-125): restores the port
selection via `findData` when the index is `> -1`, the file-location text
whenever a value is present, and the baud selection via `findData` when the
index is `> -1`. -/
def load_settings (s : Settings) (w : WidgetState) : WidgetState :=
  let w1 :=
    match s.value SETTING_PORT_NAME with
    | .vStr p =>
        let i := w.port_combobox.findData p
        if i > -1 then
          { w with port_combobox := w.port_combobox.setCurrentIndex i.toNat }
        else w
    | _ => w
  let w2 :=
    match s.value SETTING_FILE_LOCATION with
    | .vStr m => { w1 with fileLocation_text := m }
    | _ => w1
  match s.value SETTING_BAUD_RATE with
  | .vNat b =>
      let i := w2.baud_combobox.findData b
      if i > -1 then
        { w2 with baud_combobox := w2.baud_combobox.setCurrentIndex i.toNat }
      else w2
  | _ => w2

/-- A concrete widget used to exercise the settings round trip: port
`"COM4"` selected among two ports, default baud, a chosen firmware path. -/
def roundWidgetA : WidgetState where
  port_combobox := { items := [("USB", "COM3"), ("Ftdi", "COM4")], currentIndex := 1 }
  baud_combobox := freshBaudCombobox
  fileLocation_text := "fw.bin"
  status := " "

/-- A concrete widget as it looks at the next startup, before settings are
loaded: same ports enumerated, nothing selected yet. -/
def roundWidgetB : WidgetState where
  port_combobox := { items := [("USB", "COM3"), ("Ftdi", "COM4")], currentIndex := 0 }
  baud_combobox := freshBaudCombobox
  fileLocation_text := ""
  status := " "

/-! The upload button handler -/

/-- Python `str` applied to `self.port` (`None` prints as `"None"`). -/
def pyStr : Option String → String
  | some s => s
  | none => "None"

/-- Python `str` applied to `self.baudRate` (an `int`, or `None`). -/
def pyStrNat : Option Nat → String
  | some n => toString n
  | none => "None"

/-- The command line built at `AFU.py` lines 206-207. -/
def uploadCommand (port : Option String) (path : String) (baud : Option Nat) :
    String :=
  "artemis_svl.exe " ++ pyStr port ++ " -f\"" ++ path ++ "\"" ++ " -b" ++
    pyStrNat baud

/-- The environment `on_upload_btn_pressed` consults: the serial ports
enumerated at click time and the set of file paths `open()` succeeds on. -/
structure UploadEnv where
  ports : List PortInfo
  openable : List String
deriving Repr, DecidableEq

/-- The observable outcome of one press of the Upload button. -/
structure UploadResult where
  status : String
  spawned : Option String
  fileOpened : Bool
  fileClosed : Bool
  progressReset : Bool
deriving Repr, DecidableEq

/-- Shallow embedding of `RemoteWidget.on_upload_btn_pressed`
(`AFU.py` lines 171-207):

1. enumerate ports; if no enumerated device equals `self.port`, set status
   `"Port No Longer Available"` and return;
2. try `open(self.fileLocation_lineedit.text())`; on `IOError` set status
   `"File Not Found"` and return, otherwise close the handle;
3. reset `progressCount` to 0, set status `"Uploading "`, and start the
   uploader process with the command of `uploadCommand`. -/
def on_upload_btn_pressed (env : UploadEnv) (w : WidgetState) : UploadResult :=
  let portAvailable := ∃ p ∈ env.ports, w.port = some p.device
  if ¬ portAvailable then
    { status := "Port No Longer Available", spawned := none,
      fileOpened := false, fileClosed := false, progressReset := false }
  else
    let fileExists := w.fileLocation_text ∈ env.openable
    if ¬ fileExists then
      { status := "File Not Found", spawned := none,
        fileOpened := false, fileClosed := false, progressReset := false }
    else
      { status := "Uploading ",
        spawned := some (uploadCommand w.port w.fileLocation_text w.baudRate),
        fileOpened := true, fileClosed := true, progressReset := true }

/-! Spec-modelled protocol engine components

The serial bootloader protocol engine lives in the external uploader
executable (`artemis_svl.exe`), not in this repository; the following
definitions are modelled from the specification text. -/

/-- Modelled from the spec: the Image Segmenter of the protocol engine is not
in this repository.  "segment(image, pageSize)" splits the firmware binary
into fixed-size pages; "Page count = ceil(len(image) / pageSize). Last page's
tail beyond image length is zero-filled."  Bytes are modelled as naturals. -/
def segment (image : List Nat) (pageSize : Nat) : List (List Nat) :=
  if _h1 : image = [] then []
  else if _h2 : pageSize = 0 then []
  else
    (image.take pageSize ++ List.replicate (pageSize - image.length) 0) ::
      segment (image.drop pageSize) pageSize
termination_by image.length
decreasing_by
  simp only [List.length_drop]
  have : image.length ≠ 0 := fun h => _h1 (List.length_eq_zero.mp h)
  omega

/-- The error taxonomy of the spec (the kinds the claims mention). -/
inductive UploadError where
  | SessionBusy
  | PageTransferFailed (index : Nat)
deriving Repr, DecidableEq

/-- Modelled from the spec: a `Connection` of the protocol engine (not in
this repository) — an open serial handle, here with its busy flag and the
log of bytes written to it. -/
structure Connection where
  busy : Bool
  written : List Nat
deriving Repr, DecidableEq

/-- Modelled from the spec: starting an upload session on a `Connection`
(not in this repository).  "Attempting to start a second session on an
already-busy Connection fails immediately with `SessionBusy`"; otherwise the
session acquires the connection. -/
def attemptStartSession (c : Connection) : Connection × Option UploadError :=
  if c.busy then (c, some .SessionBusy)
  else ({ c with busy := true }, none)

/-- One per-page exchange outcome seen by the page-transfer loop: an ack
frame carrying a page index, or no ack within the timeout. -/
inductive Ack where
  | ok (index : Nat)
  | timeout
deriving Repr, DecidableEq

/-- Terminal outcome of the page-transfer loop. -/
inductive XferResult where
  | complete
  | starved
  | failed (e : UploadError)
deriving Repr, DecidableEq

/-- Modelled from the spec: the `TransferringPages` loop of the protocol
state machine (not in this repository).  Pages are sent in increasing index
order starting from `idx`; each send consumes one `Ack` event.  A matching
ack advances to the next index and resets the attempt counter; a mismatched
ack or a timeout retries the same index until `retryLimit` attempts have been
used, after which the session fails with `PageTransferFailed idx`.  Returns
the log of page indices actually sent and the terminal result (`starved` when
the event trace ends mid-transfer). -/
def transferLoop (pageCount retryLimit : Nat) (idx attempts : Nat) :
    List Ack → List Nat × XferResult
  | [] => if pageCount ≤ idx then ([], .complete) else ([], .starved)
  | a :: rest =>
    if pageCount ≤ idx then ([], .complete)
    else if (match a with | .ok j => j == idx | .timeout => false) then
      let p := transferLoop pageCount retryLimit (idx + 1) 0 rest
      (idx :: p.1, p.2)
    else if retryLimit ≤ attempts + 1 then
      ([idx], .failed (.PageTransferFailed idx))
    else
      let p := transferLoop pageCount retryLimit idx (attempts + 1) rest
      (idx :: p.1, p.2)

/-- Handling one stdout chunk never decreases `progressCount`: the three
terminal branches leave it untouched and the progress branch adds the
(non-negative) `'#'` count. -/
lemma progressCount_step_le (st : OutState) (result : String) :
    st.progressCount ≤ (onReadyReadStandardOutput st result).progressCount := by
  unfold onReadyReadStandardOutput
  repeat' split
  all_goals simp

/-- Over a whole session, `progressCount` never decreases. -/
lemma progressCount_fold_le (chunks : List String) (st : OutState) :
    st.progressCount ≤ (runSession chunks st).progressCount := by
  induction chunks generalizing st with
  | nil => simp [runSession]
  | cons c cs ih =>
      have h1 := progressCount_step_le st c
      have h2 := ih (onReadyReadStandardOutput st c)
      simp only [runSession, List.foldl_cons] at *
      exact le_trans h1 h2

/-- Claim C1: For every chunk of uploader stdout text, the output parser sets
exactly one status, with the three terminal tokens checked in precedence
order `"complete"`, `"failed"`, `"open"` (so they are mutually exclusive per
chunk); a chunk containing none of them has its `'#'` characters counted as
progress. -/
theorem output_parser_precedence (st : OutState) (result : String) :
    (strContains result "complete" = true →
      onReadyReadStandardOutput st result = { st with status := "Complete" }) ∧
    (strContains result "complete" = false → strContains result "failed" = true →
      onReadyReadStandardOutput st result = { st with status := "Upload Failed" }) ∧
    (strContains result "complete" = false → strContains result "failed" = false →
      strContains result "open" = true →
      onReadyReadStandardOutput st result =
        { st with status := "Port In Use / Please Close" }) ∧
    (strContains result "complete" = false → strContains result "failed" = false →
      strContains result "open" = false →
      onReadyReadStandardOutput st result =
        { status := appendDots st.status ((st.progressCount + countHash result) / 3),
          progressCount := st.progressCount + countHash result }) := by
  refine ⟨fun h1 => ?_, fun h1 h2 => ?_, fun h1 h2 h3 => ?_, fun h1 h2 h3 => ?_⟩
  · simp [onReadyReadStandardOutput, h1]
  · simp [onReadyReadStandardOutput, h1, h2]
  · simp [onReadyReadStandardOutput, h1, h2, h3]
  · simp [onReadyReadStandardOutput, h1, h2, h3]

/-- Witness for C1 at a concrete chunk containing both `"failed"` and
`"complete"`: precedence picks `"Complete"`. -/
theorem output_parser_precedence_witness :
    onReadyReadStandardOutput { status := "Uploading ", progressCount := 7 }
        "upload failed then complete" =
      { status := "Complete", progressCount := 7 } :=
  (output_parser_precedence { status := "Uploading ", progressCount := 7 }
    "upload failed then complete").1 (by decide)

/-- C2 as stated is false on the code: the parser counts raw `'#'`
characters (50 over a full upload), never a percentage, so a session ending
in `"Complete"` ends with `progressCount = 50`, not 100. -/
theorem session_complete_not_100 :
    (runSession [String.mk (List.replicate 50 '#'), "Upload complete"]
        sessionStart).status = "Complete" ∧
    (runSession [String.mk (List.replicate 50 '#'), "Upload complete"]
        sessionStart).progressCount ≠ 100 := by
  constructor <;> decide

/-- Claim C2 (amended): Within one upload session the progress indication is
monotonically non-decreasing: each stdout chunk adds a non-negative `'#'`
count to `progressCount` (chunk-wise and across any session prefix), and a
non-terminal chunk only appends dots to the displayed status text; on a
`"complete"` chunk the status is set to `"Complete"`.  (The code reports raw
`'#'` counts — 50 over a full upload — and never emits a percentage, so
progress does not end at 100.) -/
theorem session_progress_monotone (st : OutState) (result : String)
    (pre suf : List String) :
    st.progressCount ≤ (onReadyReadStandardOutput st result).progressCount ∧
    (runSession pre st).progressCount ≤
      (runSession (pre ++ suf) st).progressCount ∧
    (strContains result "complete" = false → strContains result "failed" = false →
      strContains result "open" = false →
      (onReadyReadStandardOutput st result).progressCount =
          st.progressCount + countHash result ∧
      (onReadyReadStandardOutput st result).status =
          appendDots st.status ((st.progressCount + countHash result) / 3)) ∧
    (strContains result "complete" = true →
      (onReadyReadStandardOutput st result).status = "Complete") := by
  refine ⟨progressCount_step_le st result, ?_, fun h1 h2 h3 => ?_, fun h1 => ?_⟩
  · have : runSession (pre ++ suf) st = runSession suf (runSession pre st) := by
      simp [runSession, List.foldl_append]
    rw [this]
    exact progressCount_fold_le suf (runSession pre st)
  · constructor <;> simp [onReadyReadStandardOutput, h1, h2, h3]
  · simp [onReadyReadStandardOutput, h1]

/-- Witness for C2 at concrete inputs: progress over the prefix `["##"]` of
the session `["##", "#"]` is below the full session's count, and the chunk
`"###"` adds exactly three to the counter. -/
theorem session_progress_monotone_witness :
    (runSession ["##"] sessionStart).progressCount ≤
      (runSession (["##"] ++ ["#"]) sessionStart).progressCount ∧
    (onReadyReadStandardOutput sessionStart "###").progressCount =
      sessionStart.progressCount + countHash "###" := by
  have h := session_progress_monotone sessionStart "###" ["##"] ["#"]
  exact ⟨h.2.1, (h.2.2.1 (by decide) (by decide) (by decide)).1⟩

/-- Claim C3: If the currently selected port device is not among the serial
ports enumerated at upload time, the upload fails immediately with status
`"Port No Longer Available"`: no uploader process is spawned, no file is
touched and the progress counter is not reset. -/
theorem port_gone_blocks_upload (env : UploadEnv) (w : WidgetState)
    (h : ∀ p ∈ env.ports, w.port ≠ some p.device) :
    on_upload_btn_pressed env w =
      { status := "Port No Longer Available", spawned := none,
        fileOpened := false, fileClosed := false, progressReset := false } := by
  have hna : ¬ ∃ p ∈ env.ports, w.port = some p.device := by
    rintro ⟨p, hp, he⟩
    exact h p hp he
  simp only [on_upload_btn_pressed]
  rw [if_pos hna]

/-- Witness for C3: selected device `"COM4"` while only `"COM3"` is
enumerated. -/
theorem port_gone_blocks_upload_witness :
    on_upload_btn_pressed { ports := [⟨"USB", "COM3"⟩], openable := ["fw.bin"] }
        { port_combobox := { items := [("gone", "COM4")], currentIndex := 0 },
          baud_combobox := freshBaudCombobox,
          fileLocation_text := "fw.bin", status := " " } =
      { status := "Port No Longer Available", spawned := none,
        fileOpened := false, fileClosed := false, progressReset := false } :=
  port_gone_blocks_upload
    { ports := [⟨"USB", "COM3"⟩], openable := ["fw.bin"] }
    { port_combobox := { items := [("gone", "COM4")], currentIndex := 0 },
      baud_combobox := freshBaudCombobox,
      fileLocation_text := "fw.bin", status := " " }
    (by decide)

/-- Claim C8: The uploader process is spawned only if the firmware file can be
opened: a spawn implies the path was openable and the handle was opened and
closed again; and with an available port but an unopenable path, the handler
sets `"File Not Found"` and returns without spawning. -/
theorem file_check_gates_spawn (env : UploadEnv) (w : WidgetState) :
    ((on_upload_btn_pressed env w).spawned ≠ none →
      w.fileLocation_text ∈ env.openable ∧
      (on_upload_btn_pressed env w).fileOpened = true ∧
      (on_upload_btn_pressed env w).fileClosed = true) ∧
    ((∃ p ∈ env.ports, w.port = some p.device) →
      w.fileLocation_text ∉ env.openable →
      on_upload_btn_pressed env w =
        { status := "File Not Found", spawned := none, fileOpened := false,
          fileClosed := false, progressReset := false }) := by
  constructor
  · intro hspawn
    by_cases hport : ∃ p ∈ env.ports, w.port = some p.device
    · by_cases hfile : w.fileLocation_text ∈ env.openable
      · refine ⟨hfile, ?_, ?_⟩ <;>
          · simp only [on_upload_btn_pressed]
            rw [if_neg (not_not_intro hport), if_neg (not_not_intro hfile)]
      · exfalso
        apply hspawn
        simp only [on_upload_btn_pressed]
        rw [if_neg (not_not_intro hport), if_pos hfile]
    · exfalso
      apply hspawn
      simp only [on_upload_btn_pressed]
      rw [if_pos hport]
  · intro hport hfile
    simp only [on_upload_btn_pressed]
    rw [if_neg (not_not_intro hport), if_pos hfile]

/-- Witness for C8: available port, path not openable — the handler reports
`"File Not Found"` and does not spawn. -/
theorem file_check_gates_spawn_witness :
    on_upload_btn_pressed { ports := [⟨"USB", "COM3"⟩], openable := [] }
        { port_combobox := { items := [("USB", "COM3")], currentIndex := 0 },
          baud_combobox := freshBaudCombobox,
          fileLocation_text := "missing.bin", status := " " } =
      { status := "File Not Found", spawned := none, fileOpened := false,
        fileClosed := false, progressReset := false } :=
  (file_check_gates_spawn { ports := [⟨"USB", "COM3"⟩], openable := [] }
    { port_combobox := { items := [("USB", "COM3")], currentIndex := 0 },
      baud_combobox := freshBaudCombobox,
      fileLocation_text := "missing.bin", status := " " }).2
    (by decide) (by decide)

/-- Claim C9: When an upload starts, the spawned command line is exactly
`"artemis_svl.exe "` ++ port device ++ `" -f\""` ++ file path ++ `"\""` ++
`" -b"` ++ baud rate, for every selected port, path and baud. -/
theorem spawn_command_exact (env : UploadEnv) (w : WidgetState)
    (dev : String) (b : Nat)
    (hdev : w.port = some dev) (hb : w.baudRate = some b)
    (hport : ∃ p ∈ env.ports, w.port = some p.device)
    (hfile : w.fileLocation_text ∈ env.openable) :
    (on_upload_btn_pressed env w).spawned =
      some ("artemis_svl.exe " ++ dev ++ " -f\"" ++ w.fileLocation_text ++
        "\"" ++ " -b" ++ toString b) := by
  simp only [on_upload_btn_pressed]
  rw [if_neg (not_not_intro hport), if_neg (not_not_intro hfile)]
  simp [uploadCommand, hdev, hb, pyStr, pyStrNat]

/-- Witness for C9: port `"COM4"`, file `"fw.bin"`, baud 921600. -/
theorem spawn_command_exact_witness :
    (on_upload_btn_pressed { ports := [⟨"USB", "COM4"⟩], openable := ["fw.bin"] }
        { port_combobox := { items := [("USB", "COM4")], currentIndex := 0 },
          baud_combobox := freshBaudCombobox,
          fileLocation_text := "fw.bin", status := " " }).spawned =
      some ("artemis_svl.exe " ++ "COM4" ++ " -f\"" ++ "fw.bin" ++ "\"" ++
        " -b" ++ toString 921600) :=
  spawn_command_exact { ports := [⟨"USB", "COM4"⟩], openable := ["fw.bin"] }
    { port_combobox := { items := [("USB", "COM4")], currentIndex := 0 },
      baud_combobox := freshBaudCombobox,
      fileLocation_text := "fw.bin", status := " " }
    "COM4" 921600 (by decide) (by decide) (by decide) (by decide)

/-- Items accumulated by folding `addItem` over a list of (text, data)
pairs. -/
lemma foldl_addItem_items (l : List (String × String)) (c : ComboBox String) :
    (l.foldl (fun c nd => c.addItem nd.1 nd.2) c).items = c.items ++ l := by
  induction l generalizing c with
  | nil => simp
  | cons x xs ih =>
      rw [List.foldl_cons, ih]
      simp [ComboBox.addItem]

/-- Claim C10: After `update_com_ports`, the port combobox holds exactly one
item per enumerated serial port, in enumeration order, with the description
as display text and the device as item data — independent of whatever items
the combobox held before (they are cleared first). -/
theorem com_ports_refresh (cb : ComboBox String) (ports : List PortInfo) :
    (update_com_ports cb ports).items =
      ports.map (fun p => (p.description, p.device)) ∧
    (update_com_ports cb ports).items.length = ports.length := by
  have h : (update_com_ports cb ports).items =
      ports.map (fun p => (p.description, p.device)) := by
    simp [update_com_ports, foldl_addItem_items, ComboBox.clear, gen_serial_ports]
  exact ⟨h, by simp [h]⟩

/-- A successful `findIndex` points at an item whose data is the sought
value. -/
lemma findIndex_get {α : Type} [DecidableEq α] (v : α) (l : List (String × α))
    (i : Nat) (h : findIndex v l = some i) : ∃ t, l.get? i = some (t, v) := by
  induction l generalizing i with
  | nil => simp [findIndex] at h
  | cons it rest ih =>
      by_cases hv : it.2 = v
      · simp only [findIndex, if_pos hv, Option.some.injEq] at h
        subst h
        exact ⟨it.1, by simp [← hv]⟩
      · simp only [findIndex, if_neg hv, Option.map_eq_some'] at h
        obtain ⟨j, hj, hij⟩ := h
        subst hij
        simpa using ih j hj

/-- `findIndex` fails exactly when no item carries the sought data. -/
lemma findIndex_none {α : Type} [DecidableEq α] (v : α) (l : List (String × α)) :
    findIndex v l = none ↔ v ∉ l.map Prod.snd := by
  induction l with
  | nil => simp [findIndex]
  | cons it rest ih =>
      by_cases hv : it.2 = v
      · simp [findIndex, hv]
      · simp [findIndex, hv, ih]
        intro _ he
        exact hv he.symm

/-- The data of the selected item is among the items' data. -/
lemma currentData_mem {α : Type} (cb : ComboBox α) (x : α)
    (h : cb.currentData = some x) : x ∈ cb.items.map Prod.snd := by
  simp only [ComboBox.currentData, Option.map_eq_some'] at h
  obtain ⟨it, hit, hx⟩ := h
  subst hx
  exact List.mem_map_of_mem _ (List.get?_mem hit)

/-- The `findData`-guarded restore (`if index > -1 then setCurrentIndex`)
selects data `v` exactly when `v` is among the combobox items' data. -/
lemma findData_restore {α : Type} [DecidableEq α] (cb : ComboBox α) (v : α) :
    ((if cb.findData v > -1
        then cb.setCurrentIndex (cb.findData v).toNat
        else cb).currentData = some v) ↔ v ∈ cb.items.map Prod.snd := by
  by_cases hmem : v ∈ cb.items.map Prod.snd
  · obtain ⟨i, hi⟩ : ∃ i, findIndex v cb.items = some i := by
      cases hfi : findIndex v cb.items with
      | none => exact absurd hmem ((findIndex_none v cb.items).mp hfi)
      | some i => exact ⟨i, rfl⟩
    obtain ⟨t, hget⟩ := findIndex_get v cb.items i hi
    have hfd : cb.findData v = (i : Int) := by simp [ComboBox.findData, hi]
    rw [hfd, if_pos (by omega : (i : Int) > -1)]
    have hti : ((i : Int)).toNat = i := by omega
    simp only [ComboBox.setCurrentIndex, ComboBox.currentData, hti]
    rw [hget]
    simp [hmem]
  · have hfi : findIndex v cb.items = none := (findIndex_none v cb.items).mpr hmem
    have hfd : cb.findData v = -1 := by simp [ComboBox.findData, hfi]
    rw [hfd, if_neg (by omega : ¬((-1 : Int) > -1))]
    constructor
    · intro h
      exact absurd (currentData_mem cb v h) hmem
    · intro h
      exact absurd h hmem

/-- Value stored under `SETTING_PORT_NAME` by `save_settings`. -/
lemma save_value_port (w : WidgetState) (s0 : Settings) :
    (save_settings w s0).value SETTING_PORT_NAME = optValS w.port := by
  simp [save_settings, Settings.setValue, Settings.value, List.find?,
    SETTING_PORT_NAME, SETTING_FILE_LOCATION, SETTING_BAUD_RATE]

/-- Value stored under `SETTING_FILE_LOCATION` by `save_settings`. -/
lemma save_value_file (w : WidgetState) (s0 : Settings) :
    (save_settings w s0).value SETTING_FILE_LOCATION =
      .vStr w.fileLocation_text := by
  simp [save_settings, Settings.setValue, Settings.value, List.find?,
    SETTING_PORT_NAME, SETTING_FILE_LOCATION, SETTING_BAUD_RATE]

/-- Value stored under `SETTING_BAUD_RATE` by `save_settings`. -/
lemma save_value_baud (w : WidgetState) (s0 : Settings) :
    (save_settings w s0).value SETTING_BAUD_RATE = optValN w.baudRate := by
  simp [save_settings, Settings.setValue, Settings.value, List.find?,
    SETTING_PORT_NAME, SETTING_FILE_LOCATION, SETTING_BAUD_RATE]

/-- Effect of `load_settings` when all three keys hold values of the expected
shapes. -/
lemma load_settings_parts (s : Settings) (w : WidgetState) (p m : String)
    (b : Nat)
    (h1 : s.value SETTING_PORT_NAME = .vStr p)
    (h2 : s.value SETTING_FILE_LOCATION = .vStr m)
    (h3 : s.value SETTING_BAUD_RATE = .vNat b) :
    load_settings s w =
      { port_combobox := if w.port_combobox.findData p > -1
          then w.port_combobox.setCurrentIndex (w.port_combobox.findData p).toNat
          else w.port_combobox,
        baud_combobox := if w.baud_combobox.findData b > -1
          then w.baud_combobox.setCurrentIndex (w.baud_combobox.findData b).toNat
          else w.baud_combobox,
        fileLocation_text := m,
        status := w.status } := by
  simp only [load_settings, h1, h2, h3]
  by_cases c1 : w.port_combobox.findData p > -1 <;>
    by_cases c2 : w.baud_combobox.findData b > -1 <;>
      simp [c1, c2, ComboBox.setCurrentIndex]

/-- Claim C7: Settings persistence round-trips: saving on close stores the
current port device, the file-location text and the current baud rate under
the fixed keys `"port_name"`, `"message"` and `"921600"`; loading on startup
restores the file-location text, and restores the port and baud selections
exactly when the saved value is still among the respective combobox items
(`findData` returns an index `> -1`). -/
theorem settings_roundtrip (w w2 : WidgetState) (s0 : Settings) (p : String)
    (b : Nat) (hp : w.port = some p) (hb : w.baudRate = some b) :
    (save_settings w s0).value SETTING_PORT_NAME = .vStr p ∧
    (save_settings w s0).value SETTING_FILE_LOCATION =
      .vStr w.fileLocation_text ∧
    (save_settings w s0).value SETTING_BAUD_RATE = .vNat b ∧
    (load_settings (save_settings w s0) w2).fileLocation_text =
      w.fileLocation_text ∧
    ((load_settings (save_settings w s0) w2).port = some p ↔
      p ∈ w2.port_combobox.items.map Prod.snd) ∧
    ((load_settings (save_settings w s0) w2).baudRate = some b ↔
      b ∈ w2.baud_combobox.items.map Prod.snd) := by
  have hv1 : (save_settings w s0).value SETTING_PORT_NAME = .vStr p := by
    rw [save_value_port, hp]
    rfl
  have hv2 : (save_settings w s0).value SETTING_FILE_LOCATION =
      .vStr w.fileLocation_text := save_value_file w s0
  have hv3 : (save_settings w s0).value SETTING_BAUD_RATE = .vNat b := by
    rw [save_value_baud, hb]
    rfl
  rw [load_settings_parts (save_settings w s0) w2 p w.fileLocation_text b
    hv1 hv2 hv3]
  exact ⟨hv1, hv2, hv3, rfl,
    findData_restore w2.port_combobox p, findData_restore w2.baud_combobox b⟩

/-- Witness for C7 at a concrete widget whose selected port and baud are
still present at load time. -/
theorem settings_roundtrip_witness :
    ((load_settings (save_settings roundWidgetA []) roundWidgetB).port =
        some "COM4" ↔
      "COM4" ∈ roundWidgetB.port_combobox.items.map Prod.snd) ∧
    (load_settings (save_settings roundWidgetA []) roundWidgetB).fileLocation_text
      = "fw.bin" := by
  have h := settings_roundtrip roundWidgetA roundWidgetB [] "COM4" 921600
    (by decide) (by decide)
  exact ⟨h.2.2.2.2.1, h.2.2.2.1⟩

/-- Claim C5 (spec-modelled): Starting an upload session on a `Connection`
already in use fails immediately with `SessionBusy`, leaving the connection
— in particular the log of bytes written over it — unchanged. -/
theorem session_busy_rejected (c : Connection) (h : c.busy = true) :
    attemptStartSession c = (c, some UploadError.SessionBusy) ∧
    (attemptStartSession c).1.written = c.written := by
  constructor <;> simp [attemptStartSession, h]

/-- Witness for C5: a busy connection with three bytes already written. -/
theorem session_busy_rejected_witness :
    attemptStartSession { busy := true, written := [1, 2, 3] } =
      ({ busy := true, written := [1, 2, 3] }, some UploadError.SessionBusy) :=
  (session_busy_rejected { busy := true, written := [1, 2, 3] } rfl).1

/-- Page count of the segmenter: `ceil(L / P)` computed as `(L + P - 1) / P`. -/
lemma segment_length (image : List Nat) (P : Nat) :
    0 < P → (segment image P).length = (image.length + P - 1) / P := by
  induction image, P using segment.induct with
  | case1 P =>
      intro hP
      rw [segment]
      simp [Nat.div_eq_of_lt (show P - 1 < P by omega)]
  | case2 image h1 =>
      intro hP
      exact absurd hP (lt_irrefl 0)
  | case3 image P h1 h2 ih =>
      intro hP
      rw [segment, dif_neg h1, dif_neg h2]
      rw [List.length_cons, ih hP, List.length_drop]
      have hL : 0 < image.length := List.length_pos.mpr h1
      by_cases hLP : image.length ≤ P
      · have h0 : image.length - P = 0 := by omega
        have hone : (image.length + P - 1) / P = 1 :=
          Nat.div_eq_of_lt_le (by omega) (by omega)
        rw [h0, hone, Nat.div_eq_of_lt (show 0 + P - 1 < P by omega)]
      · have heq : image.length - P + P - 1 = image.length - 1 := by omega
        have heq2 : image.length + P - 1 = image.length - 1 + P := by omega
        rw [heq, heq2, Nat.add_div_right _ hP]

/-- The pages cover at least the image: `L ≤ pageCount * P`. -/
lemma length_le_segment_mul (image : List Nat) (P : Nat) :
    0 < P → image.length ≤ (segment image P).length * P := by
  induction image, P using segment.induct with
  | case1 P =>
      intro hP
      simp
  | case2 image h1 =>
      intro hP
      exact absurd hP (lt_irrefl 0)
  | case3 image P h1 h2 ih =>
      intro hP
      rw [segment, dif_neg h1, dif_neg h2]
      have hrec := ih hP
      rw [List.length_drop] at hrec
      rw [List.length_cons, Nat.succ_mul]
      omega

/-- Concatenating the pages reproduces the image plus zero padding up to the
page boundary. -/
lemma segment_flatten (image : List Nat) (P : Nat) :
    0 < P → (segment image P).flatten =
      image ++
        List.replicate ((segment image P).length * P - image.length) 0 := by
  induction image, P using segment.induct with
  | case1 P =>
      intro hP
      rw [segment]
      simp
  | case2 image h1 =>
      intro hP
      exact absurd hP (lt_irrefl 0)
  | case3 image P h1 h2 ih =>
      intro hP
      have hL : 0 < image.length := List.length_pos.mpr h1
      rw [segment, dif_neg h1, dif_neg h2]
      rw [List.flatten_cons, List.length_cons, ih hP]
      by_cases hLP : image.length ≤ P
      · have hdrop : image.drop P = [] := List.drop_eq_nil_of_le (by omega)
        have htake : image.take P = image := List.take_of_length_le (by omega)
        rw [hdrop, htake]
        have h0 : segment ([] : List Nat) P = [] := by
          rw [segment]
          simp
        rw [h0]
        simp [Nat.succ_mul]
      · have hzero : P - image.length = 0 := by omega
        have hcov := length_le_segment_mul (image.drop P) P hP
        rw [List.length_drop] at hcov
        have hcount : (segment (image.drop P) P).length * P -
            (image.drop P).length =
            ((segment (image.drop P) P).length + 1) * P - image.length := by
          rw [List.length_drop, Nat.succ_mul]
          omega
        rw [hzero, hcount]
        simp only [List.replicate_zero, List.append_nil]
        rw [← List.append_assoc, List.take_append_drop]

/-- Claim C4 (spec-modelled): For every firmware image of length `L` and page
size `P > 0`, the Image Segmenter yields exactly `ceil(L/P)` pages,
concatenating the page payloads in order gives the image followed by
`ceil(L/P)*P - L` zero bytes, and re-running segmentation yields identical
pages. -/
theorem segmenter_pages (image : List Nat) (P : Nat) (hP : 0 < P) :
    (segment image P).length = (image.length + P - 1) / P ∧
    (segment image P).flatten =
      image ++
        List.replicate ((image.length + P - 1) / P * P - image.length) 0 ∧
    segment image P = segment image P := by
  have hl := segment_length image P hP
  refine ⟨hl, ?_, rfl⟩
  have hj := segment_flatten image P hP
  rw [hl] at hj
  exact hj

/-- Witness for C4: a five-byte image with page size two gives three pages
whose concatenation is the image plus one zero byte. -/
theorem segmenter_pages_witness :
    (segment [1, 2, 3, 4, 5] 2).length =
      (([1, 2, 3, 4, 5] : List Nat).length + 2 - 1) / 2 ∧
    (segment [1, 2, 3, 4, 5] 2).flatten =
      [1, 2, 3, 4, 5] ++
        List.replicate
          ((([1, 2, 3, 4, 5] : List Nat).length + 2 - 1) / 2 * 2 -
            ([1, 2, 3, 4, 5] : List Nat).length) 0 ∧
    segment [1, 2, 3, 4, 5] 2 = segment [1, 2, 3, 4, 5] 2 :=
  segmenter_pages [1, 2, 3, 4, 5] 2 (by decide)

/-- Unfolding of `transferLoop` on an exhausted event trace. -/
lemma transferLoop_nil (pageCount retryLimit idx attempts : Nat) :
    transferLoop pageCount retryLimit idx attempts [] =
      if pageCount ≤ idx then ([], .complete) else ([], .starved) := rfl

/-- Unfolding of `transferLoop` on one event. -/
lemma transferLoop_cons (pageCount retryLimit idx attempts : Nat) (a : Ack)
    (rest : List Ack) :
    transferLoop pageCount retryLimit idx attempts (a :: rest) =
      if pageCount ≤ idx then ([], .complete)
      else if (match a with | .ok j => j == idx | .timeout => false) then
        let p := transferLoop pageCount retryLimit (idx + 1) 0 rest
        (idx :: p.1, p.2)
      else if retryLimit ≤ attempts + 1 then
        ([idx], .failed (.PageTransferFailed idx))
      else
        let p := transferLoop pageCount retryLimit idx (attempts + 1) rest
        (idx :: p.1, p.2) := rfl

/-- Invariant of the page-transfer loop, generalized over the starting index
and attempt count: consecutive sent indices repeat or step by one, the first
sent index is the starting index, and a failed run fails with
`PageTransferFailed` of the last sent index. -/
lemma transferLoop_invariant (pageCount retryLimit : Nat) (acks : List Ack) :
    ∀ idx attempts,
      List.Chain' (fun a b => b = a ∨ b = a + 1)
        (transferLoop pageCount retryLimit idx attempts acks).1 ∧
      (∀ x, (transferLoop pageCount retryLimit idx attempts acks).1.head? =
        some x → x = idx) ∧
      (∀ e, (transferLoop pageCount retryLimit idx attempts acks).2 =
          .failed e →
        ∃ i, e = .PageTransferFailed i ∧
          (transferLoop pageCount retryLimit idx attempts acks).1.getLast? =
            some i) := by
  induction acks with
  | nil =>
      intro idx attempts
      have h1 : (transferLoop pageCount retryLimit idx attempts []).1 = [] := by
        rw [transferLoop_nil]
        split <;> rfl
      have h2 : ∀ e, (transferLoop pageCount retryLimit idx attempts []).2 ≠
          XferResult.failed e := by
        intro e
        rw [transferLoop_nil]
        split <;> simp
      exact ⟨by simp [h1], by simp [h1], fun e he => absurd he (h2 e)⟩
  | cons a rest ih =>
      intro idx attempts
      by_cases hdone : pageCount ≤ idx
      · have hres : transferLoop pageCount retryLimit idx attempts (a :: rest) =
            ([], .complete) := by
          rw [transferLoop_cons, if_pos hdone]
        rw [hres]
        refine ⟨by simp, by simp, fun e he => by simp at he⟩
      · by_cases hgood :
            (match a with | Ack.ok j => j == idx | Ack.timeout => false) = true
        · have hres : transferLoop pageCount retryLimit idx attempts
              (a :: rest) =
              (idx :: (transferLoop pageCount retryLimit (idx + 1) 0 rest).1,
                (transferLoop pageCount retryLimit (idx + 1) 0 rest).2) := by
            rw [transferLoop_cons, if_neg hdone, if_pos hgood]
          obtain ⟨ihc, ihh, ihf⟩ := ih (idx + 1) 0
          rw [hres]
          refine ⟨?_, ?_, ?_⟩
          · rw [List.chain'_cons']
            refine ⟨fun y hy => Or.inr (ihh y (Option.mem_def.mp hy)), ihc⟩
          · intro x hx
            simp only [List.head?_cons, Option.some.injEq] at hx
            exact hx.symm
          · intro e he
            obtain ⟨i, hei, hlast⟩ := ihf e he
            refine ⟨i, hei, ?_⟩
            cases hp : (transferLoop pageCount retryLimit (idx + 1) 0 rest).1
              with
            | nil =>
                rw [hp] at hlast
                simp at hlast
            | cons y ys =>
                rw [hp] at hlast
                show (idx :: y :: ys).getLast? = some i
                rw [List.getLast?_cons_cons]
                exact hlast
        · by_cases hlim : retryLimit ≤ attempts + 1
          · have hres : transferLoop pageCount retryLimit idx attempts
                (a :: rest) =
                ([idx], .failed (.PageTransferFailed idx)) := by
              rw [transferLoop_cons, if_neg hdone, if_neg hgood, if_pos hlim]
            rw [hres]
            refine ⟨by simp, ?_, fun e he => ?_⟩
            · intro x hx
              simp only [List.head?_cons, Option.some.injEq] at hx
              exact hx.symm
            · simp only [XferResult.failed.injEq] at he
              exact ⟨idx, he.symm, by simp⟩
          · have hres : transferLoop pageCount retryLimit idx attempts
                (a :: rest) =
                (idx ::
                  (transferLoop pageCount retryLimit idx (attempts + 1) rest).1,
                  (transferLoop pageCount retryLimit idx (attempts + 1)
                    rest).2) := by
              rw [transferLoop_cons, if_neg hdone, if_neg hgood, if_neg hlim]
            obtain ⟨ihc, ihh, ihf⟩ := ih idx (attempts + 1)
            rw [hres]
            refine ⟨?_, ?_, ?_⟩
            · rw [List.chain'_cons']
              refine ⟨fun y hy => Or.inl (ihh y (Option.mem_def.mp hy)), ihc⟩
            · intro x hx
              simp only [List.head?_cons, Option.some.injEq] at hx
              exact hx.symm
            · intro e he
              obtain ⟨i, hei, hlast⟩ := ihf e he
              refine ⟨i, hei, ?_⟩
              cases hp :
                (transferLoop pageCount retryLimit idx (attempts + 1) rest).1
                with
              | nil =>
                  rw [hp] at hlast
                  simp at hlast
              | cons y ys =>
                  rw [hp] at hlast
                  show (idx :: y :: ys).getLast? = some i
                  rw [List.getLast?_cons_cons]
                  exact hlast

/-- Claim C6 (spec-modelled): In every upload session the page indices sent to
the device form a contiguous non-decreasing run starting at 0 — each sent
index is either the previous index (a retry triggered by a mismatched or
missing acknowledgement) or its successor, with no gaps — and exceeding the
retry limit for an index ends the session in `Failed` with
`PageTransferFailed` of exactly that index (the last one sent). -/
theorem page_sequence_contiguous (pageCount retryLimit : Nat)
    (acks : List Ack) :
    List.Chain' (fun a b => b = a ∨ b = a + 1)
      (transferLoop pageCount retryLimit 0 0 acks).1 ∧
    (∀ x, (transferLoop pageCount retryLimit 0 0 acks).1.head? = some x →
      x = 0) ∧
    (∀ e, (transferLoop pageCount retryLimit 0 0 acks).2 = .failed e →
      ∃ i, e = .PageTransferFailed i ∧
        (transferLoop pageCount retryLimit 0 0 acks).1.getLast? = some i) :=
  transferLoop_invariant pageCount retryLimit acks 0 0

/-- Witness for C6: three pages, retry limit 3, a trace where page 0 is
acked, then page 1 times out, is mis-acked and times out again — the sent
sequence is `[0, 1, 1, 1]` and the session fails with
`PageTransferFailed 1`. -/
theorem page_sequence_contiguous_witness :
    List.Chain' (fun a b => b = a ∨ b = a + 1)
      (transferLoop 3 3 0 0 [Ack.ok 0, Ack.timeout, Ack.ok 5, Ack.timeout]).1 ∧
    (∃ i, UploadError.PageTransferFailed 1 = UploadError.PageTransferFailed i ∧
      (transferLoop 3 3 0 0
        [Ack.ok 0, Ack.timeout, Ack.ok 5, Ack.timeout]).1.getLast? = some i) := by
  have h := page_sequence_contiguous 3 3
    [Ack.ok 0, Ack.timeout, Ack.ok 5, Ack.timeout]
  exact ⟨h.1, h.2.2 (UploadError.PageTransferFailed 1) (by decide)⟩

end AFU
